import Mathlib

/-
Verification of the WinnerPhoto backend OAuth2 token-exchange endpoint
(src/backend/main.py, handler google_auth_exchange).

Shallow embedding notes:
- JSON values are modelled by the inductive `Jval`; Python truthiness by `truthy`.
- The handler is modelled as a pure function from the startup configuration,
  the parsed JSON request body (an association list, as produced by the JSON
  parser, so keys are unique) and the behaviour of the single outbound HTTP
  call (`NetResult`, an environment input) to a result plus a trace of
  observable effects (log lines, the outbound POST, persistence calls).
- Machine-level details that no claim depends on are fixed representatives:
  the text of a json.JSONDecodeError is position dependent in Python and is
  modelled by the representative constant `jsonDecodeMsg`; Python string
  escaping inside repr output is elided.
- fastapi/starlette behaviour modelled: an HTTPException raised inside the
  try block at line 116 of the source is caught by the generic
  `except Exception` at line 158 (HTTPException is an Exception subclass) and
  re-wrapped; str of a starlette HTTPException is "<status>: <detail>".
  httpx raise_for_status raises exactly for statuses outside 200..299.
  An exception raised before the try block (the slice at line 88 on a truthy
  non-sliceable code value) escapes the handler entirely; the framework then
  serves a plain-text 500 with no JSON detail body, modelled by the
  `unhandled` result constructor.
-/

/-- A JSON value as produced by parsing a response or request body. Numbers
are modelled as integers; no claim depends on the numeric representation. -/
inductive Jval where
  | jnull : Jval
  | jbool : Bool → Jval
  | jnum : Int → Jval
  | jstr : String → Jval
  | jarr : List Jval → Jval
  | jobj : List (String × Jval) → Jval

/-- Python truthiness of a JSON value. -/
def truthy : Jval → Bool
  | .jnull => false
  | .jbool b => b
  | .jnum n => n != 0
  | .jstr s => s != ""
  | .jarr xs => !xs.isEmpty
  | .jobj fs => !fs.isEmpty

/-- Truthiness of dict.get applied to an optional lookup result. -/
def pyTruthyOpt : Option Jval → Bool
  | none => false
  | some v => truthy v

/-- Python type name, used in TypeError and AttributeError messages. -/
def pyTypeName : Jval → String
  | .jnull => "NoneType"
  | .jbool _ => "bool"
  | .jnum _ => "int"
  | .jstr _ => "str"
  | .jarr _ => "list"
  | .jobj _ => "dict"

mutual

/-- Python repr of a JSON value (string escaping elided). -/
def pyRepr : Jval → String
  | .jnull => "None"
  | .jbool true => "True"
  | .jbool false => "False"
  | .jnum n => toString n
  | .jstr s => "\x27" ++ s ++ "\x27"
  | .jarr xs => "[" ++ pyReprElems xs ++ "]"
  | .jobj fs => "\x7b" ++ pyReprPairs fs ++ "\x7d"

/-- Comma separated reprs of list elements. -/
def pyReprElems : List Jval → String
  | [] => ""
  | [v] => pyRepr v
  | v :: rest => pyRepr v ++ ", " ++ pyReprElems rest

/-- Comma separated reprs of dict entries. -/
def pyReprPairs : List (String × Jval) → String
  | [] => ""
  | [(k, v)] => "\x27" ++ k ++ "\x27: " ++ pyRepr v
  | (k, v) :: rest => "\x27" ++ k ++ "\x27: " ++ pyRepr v ++ ", " ++ pyReprPairs rest

end

/-- Python str of a JSON value, as embedded by an f-string. -/
def pyStr : Jval → String
  | .jstr s => s
  | v => pyRepr v

/-- Python slicing v[:20]. Defined for strings and lists; `none` models the
TypeError raised on other types. -/
def pySlice : Jval → Option Jval
  | .jstr s => some (.jstr (s.take 20))
  | .jarr xs => some (.jarr (xs.take 20))
  | _ => none

/-- Message of the TypeError raised when v[:20] is applied to a value that
does not support slicing. -/
def pySliceErrMsg : Jval → String
  | .jobj _ => "unhashable type: \x27slice\x27"
  | v => "\x27" ++ pyTypeName v ++ "\x27 object is not subscriptable"

/-- Message of the AttributeError raised when .items() is called on a
non-dict JSON value (source line 108 when response.json() is not an object). -/
def noItemsMsg (v : Jval) : String :=
  "\x27" ++ pyTypeName v ++ "\x27 object has no attribute \x27items\x27"

/-- Representative message of the json.JSONDecodeError raised by
response.json() on a non-JSON body; the exact text is position dependent and
no claim depends on it. -/
def jsonDecodeMsg : String := "Expecting value: line 1 column 1 (char 0)"

/-- The value truncation applied inside the token log at source line 108:
string values longer than 20 characters are cut to their first 20 characters
followed by an ellipsis; other values pass through. -/
def truncVal : Jval → Jval
  | .jstr s => if s.length > 20 then .jstr (s.take 20 ++ "...") else .jstr s
  | v => v

/-- Entrywise truncation of the token dict for the line 108 log. -/
def truncEntries (fields : List (String × Jval)) : List (String × Jval) :=
  fields.map (fun p => (p.1, truncVal p.2))

/-- The startup configuration read from the environment (source lines 37-42).
`none` models an unset environment variable. -/
structure Config where
  clientId : Option String
  clientSecret : Option String
  redirectUri : Option String

/-- Python truthiness of an optional environment string: unset and empty are
both falsy, which is exactly what `all([...])` tests at source line 82. -/
def optTruthy : Option String → Bool
  | none => false
  | some s => s != ""

/-- The credential check all([GOOGLE_CLIENT_ID, GOOGLE_CLIENT_SECRET,
GOOGLE_REDIRECT_URI]) at source line 82. -/
def configOk (cfg : Config) : Bool :=
  optTruthy cfg.clientId && optTruthy cfg.clientSecret && optTruthy cfg.redirectUri

/-- The response of the provider token endpoint: HTTP status, the JSON parse
of the body when it succeeds, and the raw body text. -/
structure HttpResponse where
  status : Nat
  jsonBody : Option Jval
  text : String

/-- Outcome of the single outbound HTTP call: a transport-level exception
with its message, or a response. -/
inductive NetResult where
  | netFail : String → NetResult
  | netOk : HttpResponse → NetResult

/-- Observable effects of one handler invocation, in order: log lines
(print statements), the outbound POST with its form payload, and invocations
of a refresh-token persistence collaborator. The source contains no
persistence call (only a TODO log), so the embedding never emits
`persistRefreshToken`; the constructor exists so that its absence is a
statement, not a modelling gap. -/
inductive Effect where
  | log : String → Effect
  | httpPost : String → List (String × Jval) → Effect
  | persistRefreshToken : String → String → Effect

/-- Client-facing outcome: a JSON success body, a structured HTTPException
(status plus JSON detail string), or an exception escaping the handler (the
framework then serves a plain-text 500 with no JSON detail). -/
inductive ExchangeResult where
  | success : List (String × Jval) → ExchangeResult
  | httpError : Nat → String → ExchangeResult
  | unhandled : String → ExchangeResult

/-- HTTP status as seen by the caller. -/
def statusOf : ExchangeResult → Nat
  | .success _ => 200
  | .httpError s _ => s
  | .unhandled _ => 500

def isSuccessR : ExchangeResult → Bool
  | .success _ => true
  | _ => false

def isHttpErrorR : ExchangeResult → Bool
  | .httpError _ _ => true
  | _ => false

def isPersistEffect : Effect → Bool
  | .persistRefreshToken _ _ => true
  | _ => false

/-- Source line 44. -/
def GOOGLE_TOKEN_URL : String := "https://oauth2.googleapis.com/token"

/-- Detail of the 400 raised at source lines 76-80. -/
def msgCodeRequired : String :=
  "El código de autorización (\x27code\x27) es requerido en el cuerpo JSON."

/-- Detail of the 503 raised at source lines 82-86. -/
def msgMisconfigured : String :=
  "Error de configuración del servidor: Las credenciales de Google no están completas en el backend."

/-- Detail of the inner 500 raised at source lines 116-119. -/
def incompleteMsg : String := "Respuesta de token incompleta de Google."

/-- Detail built by the generic handler at source lines 161-164. -/
def internalDetail (msg : String) : String :=
  "Error interno del servidor durante la autenticación: " ++ msg

/-- The print at source line 160. -/
def logUnexpected (msg : String) : Effect :=
  .log ("Backend Error: Error inesperado durante el intercambio de código: " ++ msg)

/-- The print at source line 133. -/
def noRefreshLog : Effect :=
  .log "Backend: No se recibió un refresh_token de Google esta vez (puede ser normal si no es la primera autorización)."

/-- The form payload built at source lines 90-99. -/
def mkPayload (ac : Jval) (cid csec ruri : String) : List (String × Jval) :=
  [("code", ac),
   ("client_id", .jstr cid),
   ("client_secret", .jstr csec),
   ("redirect_uri", .jstr ruri),
   ("grant_type", .jstr "authorization_code")]

/-- The error description extraction at source lines 146-151:
error_description, falling back to error, falling back to the raw body text;
any failure of e.response.json() or of .get (non-dict JSON) also falls back
to the raw body text. -/
def upstreamErrDesc (resp : HttpResponse) : Jval :=
  match resp.jsonBody with
  | some (.jobj fields) =>
      (List.lookup "error_description" fields).getD
        ((List.lookup "error" fields).getD (.jstr resp.text))
  | _ => .jstr resp.text

/-- The success body returned at source lines 138-142. The two token values
are present and truthy whenever this is built. -/
def successBody (access_token id_token : Option Jval) : List (String × Jval) :=
  [("access_token", access_token.getD .jnull),
   ("id_token", id_token.getD .jnull),
   ("message", .jstr "Tokens obtenidos exitosamente desde el backend.")]

/-- Source lines 110-142 given a parsed token dict: the three .get lookups,
the completeness check (line 114, with the raised 500 re-wrapped by the
generic handler at line 158), the refresh-token branch (lines 121-133,
including the TypeError on a truthy non-sliceable refresh token) and the
success return. The branch order is inverted relative to the source text but
the guard is the exact negation, so the semantics coincide. Returns the
result and the effects emitted after the line 108 log. -/
def handleTokenFields (fields : List (String × Jval)) : ExchangeResult × List Effect :=
  let access_token := List.lookup "access_token" fields
  let id_token := List.lookup "id_token" fields
  let refresh_token := List.lookup "refresh_token" fields
  if pyTruthyOpt access_token && pyTruthyOpt id_token then
    match refresh_token with
    | some rt =>
      if truthy rt then
        match pySlice rt with
        | some rsl =>
          (.success (successBody access_token id_token),
           [.log ("Backend: ¡REFRESH TOKEN RECIBIDO! (primeros 20 chars): " ++ pyStr rsl ++ "..."),
            .log "TODO: Implementar almacenamiento seguro del refresh_token aquí."])
        | none =>
          (.httpError 500 (internalDetail (pySliceErrMsg rt)),
           [logUnexpected (pySliceErrMsg rt)])
      else
        (.success (successBody access_token id_token), [noRefreshLog])
    | none =>
      (.success (successBody access_token id_token), [noRefreshLog])
  else
    (.httpError 500 (internalDetail ("500: " ++ incompleteMsg)),
     [.log ("Backend Error: Respuesta incompleta de Google al solicitar token: " ++ pyRepr (.jobj fields)),
      logUnexpected ("500: " ++ incompleteMsg)])

/-- Source lines 107-142 on a 2xx response: response.json() (line 107, a
decode failure reaches the generic handler), the .items() log at line 108
(an AttributeError on non-dict JSON reaches the generic handler before
anything is printed), then `handleTokenFields`. -/
def handleRespBody (resp : HttpResponse) : ExchangeResult × List Effect :=
  match resp.jsonBody with
  | none =>
      (.httpError 500 (internalDetail jsonDecodeMsg), [logUnexpected jsonDecodeMsg])
  | some (.jobj fields) =>
      let r := handleTokenFields fields
      (r.1,
       .log ("Backend: Respuesta de tokens recibida de Google: " ++ pyRepr (.jobj (truncEntries fields)))
         :: r.2)
  | some v =>
      (.httpError 500 (internalDetail (noItemsMsg v)), [logUnexpected (noItemsMsg v)])

/-- The handler google_auth_exchange of src/backend/main.py, lines 66-164,
as a function of the startup configuration, the parsed JSON request body and
the outbound call behaviour. Mirrors the source order: code presence check
(line 76), credential check (line 82), the line 88 log (whose slice raises an
unhandled TypeError on truthy non-sliceable code values), payload
construction (line 90), the outbound POST (line 104), raise_for_status
(line 105) with the 502 branch (lines 144-157), and the 2xx body handling.
A transport failure of the POST reaches the generic handler (lines 158-164).
The credentials are read through getD after the truthiness check, where the
source reads the module globals directly. -/
def google_auth_exchange (cfg : Config) (request_data : List (String × Jval))
    (net : NetResult) : ExchangeResult × List Effect :=
  match List.lookup "code" request_data with
  | none => (.httpError 400 msgCodeRequired, [])
  | some auth_code =>
    if truthy auth_code then
      if configOk cfg then
        match pySlice auth_code with
        | none => (.unhandled (pySliceErrMsg auth_code), [])
        | some acSlice =>
          let payload := mkPayload auth_code (cfg.clientId.getD "")
            (cfg.clientSecret.getD "") (cfg.redirectUri.getD "")
          let callLogs : List Effect :=
            [.log ("Backend: Código de autorización recibido (primeros 20 chars): " ++ pyStr acSlice ++ "..."),
             .log ("Backend: Solicitando tokens a Google en: " ++ GOOGLE_TOKEN_URL),
             .httpPost GOOGLE_TOKEN_URL payload]
          match net with
          | .netFail msg =>
              (.httpError 500 (internalDetail msg), callLogs ++ [logUnexpected msg])
          | .netOk resp =>
              if 200 ≤ resp.status ∧ resp.status < 300 then
                let r := handleRespBody resp
                (r.1, callLogs ++ r.2)
              else
                let desc := upstreamErrDesc resp
                (.httpError 502 ("Error al comunicarse con el servicio de autenticación de Google: " ++ pyStr desc),
                 callLogs ++
                   [.log ("Backend Error: Error HTTP de Google al intercambiar código: " ++ toString resp.status ++ " - " ++ pyStr desc)])
      else (.httpError 503 msgMisconfigured, [])
    else (.httpError 400 msgCodeRequired, [])

/-- Substring test on character lists. -/
def subOfList (pat : List Char) : List Char → Bool
  | [] => pat.isEmpty
  | c :: rest => List.isPrefixOf pat (c :: rest) || subOfList pat rest

/-- Substring test on strings. -/
def strContainsStr (hay pat : String) : Bool := subOfList pat.toList hay.toList

/-- A request body whose code value, when present and truthy, supports the
slice at source line 88 (a string or a list); such requests never escape the
exception handling of the endpoint. -/
def codeHandled (req : List (String × Jval)) : Bool :=
  match List.lookup "code" req with
  | none => true
  | some v => !truthy v || (pySlice v).isSome

/-- A token dict whose refresh_token entry is absent, falsy, or supports the
line 126 slice (a string or a list): exactly the dicts on which the refresh
branch cannot raise a TypeError. -/
def refreshBenign (fields : List (String × Jval)) : Bool :=
  match List.lookup "refresh_token" fields with
  | none => true
  | some v => !truthy v || (pySlice v).isSome

/-- Fully configured fixture credentials. -/
def cfg0 : Config :=
  { clientId := some "cid", clientSecret := some "csecret",
    redirectUri := some "https://redirect.example/" }

/-- Fixture credentials with the client secret unset. -/
def cfgMissing : Config :=
  { clientId := some "cid", clientSecret := none,
    redirectUri := some "https://redirect.example/" }

/-- Fixture request with a valid code. -/
def req0 : List (String × Jval) := [("code", .jstr "authcode12345")]

/-- Fixture transport failure; used where the outbound call is never reached. -/
def net0 : NetResult := .netFail "connection error"

/-- C2: for every request whose JSON body is missing the code field or has
code equal to the empty string, the exchange fails with the 400 invalid
request error and emits no effect at all, in particular no outbound call. -/
theorem C2_missing_code_rejected (cfg : Config) (net : NetResult)
    (req : List (String × Jval))
    (h : List.lookup "code" req = none ∨ List.lookup "code" req = some (.jstr "")) :
    (google_auth_exchange cfg req net).1 = .httpError 400 msgCodeRequired ∧
    (google_auth_exchange cfg req net).2 = [] := by
  rcases h with h | h <;> simp [google_auth_exchange, h, truthy]

/-- C2 witness: the empty request body is rejected with 400 and an empty
effect trace. -/
theorem C2_witness :
    (google_auth_exchange cfg0 [] net0).1 = .httpError 400 msgCodeRequired ∧
    (google_auth_exchange cfg0 [] net0).2 = [] :=
  C2_missing_code_rejected cfg0 net0 [] (Or.inl rfl)

/-- C3 counterexample: with the client secret unset, a call with no code
field is answered 400, not 503, because the code-presence check runs first
(source line 76 before line 82); so not every call under a missing
credential fails with ServerMisconfigured. -/
theorem C3_counterexample :
    statusOf (google_auth_exchange cfgMissing [] net0).1 = 400 ∧
    statusOf (google_auth_exchange cfgMissing [] net0).1 ≠ 503 := by
  decide

/-- C3 amended: when any provider credential is unset or empty, every call
that passes the code-presence check (code present and truthy) fails with the
503 misconfiguration error and emits no effect, in particular no outbound
call. -/
theorem C3_amended_misconfigured (cfg : Config) (req : List (String × Jval))
    (net : NetResult) (ac : Jval)
    (hcode : List.lookup "code" req = some ac) (htr : truthy ac = true)
    (hcfg : configOk cfg = false) :
    (google_auth_exchange cfg req net).1 = .httpError 503 msgMisconfigured ∧
    (google_auth_exchange cfg req net).2 = [] := by
  simp [google_auth_exchange, hcode, htr, hcfg]

/-- C3 witness: with the client secret unset and a valid code, the call
fails 503 with no outbound call. -/
theorem C3_witness :
    (google_auth_exchange cfgMissing req0 net0).1 = .httpError 503 msgMisconfigured ∧
    (google_auth_exchange cfgMissing req0 net0).2 = [] :=
  C3_amended_misconfigured cfgMissing req0 net0 (.jstr "authcode12345") rfl rfl rfl

/-- C5: on a 2xx provider response whose JSON object lacks access_token or
lacks id_token, the exchange fails with HTTP 500; the detail is the generic
internal-error wrap of the incomplete-response message, because the
HTTPException raised at source line 116 is re-caught by the generic handler
at line 158. -/
theorem C5_incomplete_response (cfg : Config) (req : List (String × Jval))
    (resp : HttpResponse) (ac acs : Jval) (fields : List (String × Jval))
    (hcode : List.lookup "code" req = some ac) (htr : truthy ac = true)
    (hsl : pySlice ac = some acs) (hcfg : configOk cfg = true)
    (h2xx : 200 ≤ resp.status ∧ resp.status < 300)
    (hbody : resp.jsonBody = some (.jobj fields))
    (hmiss : List.lookup "access_token" fields = none ∨
             List.lookup "id_token" fields = none) :
    (google_auth_exchange cfg req (.netOk resp)).1 =
      .httpError 500 (internalDetail ("500: " ++ incompleteMsg)) := by
  simp only [google_auth_exchange, hcode, htr, hcfg, hsl, if_true]
  rw [if_pos h2xx]
  simp only [handleRespBody, hbody, handleTokenFields]
  rcases hmiss with hm | hm <;> simp [hm, pyTruthyOpt]

/-- C5 witness: a 200 response with only an access_token yields the 500
incomplete-response failure. -/
theorem C5_witness :
    (google_auth_exchange cfg0 req0
        (.netOk { status := 200, jsonBody := some (.jobj [("access_token", .jstr "at")]), text := "x" })).1 =
      .httpError 500 (internalDetail ("500: " ++ incompleteMsg)) :=
  C5_incomplete_response cfg0 req0
    { status := 200, jsonBody := some (.jobj [("access_token", .jstr "at")]), text := "x" }
    (.jstr "authcode12345") (.jstr "authcode12345") [("access_token", .jstr "at")]
    rfl rfl rfl rfl (by decide) rfl (Or.inr rfl)

/-- Every success result of `handleTokenFields` carries exactly the body
built by `successBody` from the two token lookups. -/
theorem handleTokenFields_success_shape (fields : List (String × Jval))
    (b : List (String × Jval)) (h : (handleTokenFields fields).1 = .success b) :
    b = successBody (List.lookup "access_token" fields) (List.lookup "id_token" fields) := by
  simp only [handleTokenFields] at h
  split at h
  · split at h
    · split at h
      · split at h
        · exact (ExchangeResult.success.inj h).symm
        · exact absurd h (by simp)
      · exact (ExchangeResult.success.inj h).symm
    · exact (ExchangeResult.success.inj h).symm
  · exact absurd h (by simp)

/-- Every success result of `handleRespBody` comes from a parsed JSON object
and carries the `successBody` shape. -/
theorem handleRespBody_success_shape (resp : HttpResponse)
    (b : List (String × Jval)) (h : (handleRespBody resp).1 = .success b) :
    ∃ fields, resp.jsonBody = some (.jobj fields) ∧
      b = successBody (List.lookup "access_token" fields) (List.lookup "id_token" fields) := by
  rcases hres : resp.jsonBody with _ | v
  · simp [handleRespBody, hres] at h
  · cases v <;> simp only [handleRespBody, hres] at h
    case jobj fields =>
      exact ⟨fields, rfl, handleTokenFields_success_shape fields b h⟩
    all_goals exact absurd h (by simp)

/-- C1: every successful exchange response body consists of exactly the keys
access_token, id_token and message, in this order (these are the wire forms
of the fields the specification calls accessToken, idToken and message), and
no refresh-token key is ever present, whatever the provider returned. -/
theorem C1_success_response_shape (cfg : Config) (req : List (String × Jval))
    (net : NetResult) (b : List (String × Jval))
    (h : (google_auth_exchange cfg req net).1 = .success b) :
    b.map Prod.fst = ["access_token", "id_token", "message"] ∧
    List.lookup "refresh_token" b = none ∧ List.lookup "refreshToken" b = none := by
  rcases hc : List.lookup "code" req with _ | ac
  · simp [google_auth_exchange, hc] at h
  · by_cases ht : truthy ac = true
    · by_cases hcfg : configOk cfg = true
      · rcases hsl : pySlice ac with _ | acs
        · simp [google_auth_exchange, hc, ht, hcfg, hsl] at h
        · cases net with
          | netFail msg => simp [google_auth_exchange, hc, ht, hcfg, hsl] at h
          | netOk resp =>
            by_cases h2 : 200 ≤ resp.status ∧ resp.status < 300
            · simp only [google_auth_exchange, hc, ht, hcfg, hsl, if_true, if_pos h2] at h
              obtain ⟨fields, _, hb⟩ := handleRespBody_success_shape resp b h
              subst hb
              exact ⟨rfl, rfl, rfl⟩
            · simp [google_auth_exchange, hc, ht, hcfg, hsl, if_neg h2] at h
      · simp [google_auth_exchange, hc, ht, hcfg] at h
    · simp [google_auth_exchange, hc, ht] at h

/-- C1 witness: a successful concrete exchange, with a provider response
that contains no refresh token, yields exactly the three keys. -/
theorem C1_witness :
    (successBody (some (.jstr "at")) (some (.jstr "it"))).map Prod.fst =
      ["access_token", "id_token", "message"] ∧
    List.lookup "refresh_token" (successBody (some (.jstr "at")) (some (.jstr "it"))) = none ∧
    List.lookup "refreshToken" (successBody (some (.jstr "at")) (some (.jstr "it"))) = none :=
  C1_success_response_shape cfg0 req0
    (.netOk { status := 200,
              jsonBody := some (.jobj [("access_token", .jstr "at"), ("id_token", .jstr "it")]),
              text := "" })
    (successBody (some (.jstr "at")) (some (.jstr "it"))) rfl

/-- Non-2xx fixture whose JSON body has an error field but no
error_description, and whose raw text differs from the error value. -/
def respErr1 : HttpResponse :=
  { status := 400, jsonBody := some (.jobj [("error", .jstr "invalid_grant")]),
    text := "RAWBODY" }

/-- C4 counterexample: on a 400 provider response whose JSON body has no
error_description but an error field, the 502 detail carries the error field
value, not the raw response body text as the claim states: the raw text
RAWBODY appears nowhere in the detail. -/
theorem C4_counterexample :
    (google_auth_exchange cfg0 req0 (.netOk respErr1)).1 =
      .httpError 502 "Error al comunicarse con el servicio de autenticación de Google: invalid_grant" ∧
    strContainsStr "Error al comunicarse con el servicio de autenticación de Google: invalid_grant" "RAWBODY" = false := by
  exact ⟨rfl, by decide⟩

/-- C4 amended: every non-2xx provider response yields the 502 upstream
error whose detail embeds the extracted description; the description is
error_description when the JSON object has it, else the error field when
present, else the raw body text, and also the raw body text when the body is
not a JSON object. -/
theorem C4_amended_upstream_error (cfg : Config) (req : List (String × Jval))
    (resp : HttpResponse) (ac acs : Jval)
    (hcode : List.lookup "code" req = some ac) (htr : truthy ac = true)
    (hsl : pySlice ac = some acs) (hcfg : configOk cfg = true)
    (hs : ¬ (200 ≤ resp.status ∧ resp.status < 300)) :
    (google_auth_exchange cfg req (.netOk resp)).1 =
      .httpError 502 ("Error al comunicarse con el servicio de autenticación de Google: " ++
        pyStr (upstreamErrDesc resp)) ∧
    (∀ fields v, resp.jsonBody = some (.jobj fields) →
       List.lookup "error_description" fields = some v → upstreamErrDesc resp = v) ∧
    (∀ fields v, resp.jsonBody = some (.jobj fields) →
       List.lookup "error_description" fields = none →
       List.lookup "error" fields = some v → upstreamErrDesc resp = v) ∧
    (∀ fields, resp.jsonBody = some (.jobj fields) →
       List.lookup "error_description" fields = none →
       List.lookup "error" fields = none → upstreamErrDesc resp = .jstr resp.text) ∧
    ((∀ fields, resp.jsonBody ≠ some (.jobj fields)) →
       upstreamErrDesc resp = .jstr resp.text) := by
  refine ⟨?_, ?_, ?_, ?_, ?_⟩
  · simp [google_auth_exchange, hcode, htr, hcfg, hsl, if_neg hs]
  · intro fields v hb hd
    simp [upstreamErrDesc, hb, hd]
  · intro fields v hb hd he
    simp [upstreamErrDesc, hb, hd, he]
  · intro fields hb hd he
    simp [upstreamErrDesc, hb, hd, he]
  · intro hnb
    rcases hres : resp.jsonBody with _ | v
    · simp [upstreamErrDesc, hres]
    · cases v <;> simp [upstreamErrDesc, hres]
      exact absurd hres (hnb _)

/-- Non-2xx fixture carrying an error_description. -/
def respErr2 : HttpResponse :=
  { status := 401,
    jsonBody := some (.jobj [("error_description", .jstr "Code was already redeemed.")]),
    text := "ignored" }

/-- C4 witness: a concrete 401 provider response produces the 502 upstream
error embedding the extracted description. -/
theorem C4_witness :
    (google_auth_exchange cfg0 req0 (.netOk respErr2)).1 =
      .httpError 502 ("Error al comunicarse con el servicio de autenticación de Google: " ++
        pyStr (upstreamErrDesc respErr2)) :=
  (C4_amended_upstream_error cfg0 req0 respErr2 (.jstr "authcode12345")
    (.jstr "authcode12345") rfl rfl rfl rfl (by decide)).1

/-- The token dict of a provider response that includes a refresh token. -/
def rtFields : List (String × Jval) :=
  [("access_token", .jstr "at"), ("id_token", .jstr "it"),
   ("refresh_token", .jstr "RT-0123456789-0123456789-SECRET")]

/-- A 200 provider response that includes a refresh token. -/
def respRT : HttpResponse :=
  { status := 200, jsonBody := some (.jobj rtFields), text := "" }

/-- C7: on a 200 provider response carrying a (present and truthy) refresh
token, the exchange succeeds and its effect trace contains zero invocations
of the persistence collaborator: the source only logs a TODO (lines 121-130)
and never stores the token, contradicting the claim that the collaborator is
invoked exactly once. -/
theorem C7_no_persist_call :
    pyTruthyOpt (List.lookup "refresh_token" rtFields) = true ∧
    (google_auth_exchange cfg0 req0 (.netOk respRT)).1 =
      .success (successBody (some (.jstr "at")) (some (.jstr "it"))) ∧
    ((google_auth_exchange cfg0 req0 (.netOk respRT)).2.countP isPersistEffect) = 0 := by
  refine ⟨rfl, rfl, ?_⟩
  rfl

/-- Every effect emitted by `handleTokenFields` is a log line. -/
theorem handleTokenFields_log_only (fields : List (String × Jval)) (e : Effect)
    (h : e ∈ (handleTokenFields fields).2) : ∃ l, e = .log l := by
  simp only [handleTokenFields] at h
  split at h
  · split at h
    · split at h
      · split at h
        · simp only [List.mem_cons, List.not_mem_nil, or_false] at h
          rcases h with h | h
          · exact ⟨_, h⟩
          · exact ⟨_, h⟩
        · simp only [logUnexpected, List.mem_cons, List.not_mem_nil, or_false] at h
          exact ⟨_, h⟩
      · simp only [noRefreshLog, List.mem_cons, List.not_mem_nil, or_false] at h
        exact ⟨_, h⟩
    · simp only [noRefreshLog, List.mem_cons, List.not_mem_nil, or_false] at h
      exact ⟨_, h⟩
  · simp only [logUnexpected, List.mem_cons, List.not_mem_nil, or_false] at h
    rcases h with h | h
    · exact ⟨_, h⟩
    · exact ⟨_, h⟩

/-- Every effect emitted by `handleRespBody` is a log line. -/
theorem handleRespBody_log_only (resp : HttpResponse) (e : Effect)
    (h : e ∈ (handleRespBody resp).2) : ∃ l, e = .log l := by
  rcases hres : resp.jsonBody with _ | v
  · simp only [handleRespBody, hres, logUnexpected, List.mem_cons, List.not_mem_nil,
      or_false] at h
    exact ⟨_, h⟩
  · cases v <;>
      simp only [handleRespBody, hres, logUnexpected, List.mem_cons, List.not_mem_nil,
        or_false] at h
    case jobj fields =>
      rcases h with h | h
      · exact ⟨_, h⟩
      · exact handleTokenFields_log_only fields e h
    all_goals exact ⟨_, h⟩

/-- C6: whenever the exchange emits an outbound POST, it goes to the fixed
Google token endpoint and its form payload consists of exactly the five keys
code, client_id, client_secret, redirect_uri and grant_type, where code is
the code value of the request body, the three credential fields are the
configured values, and grant_type is authorization_code. The payload is
handed to the HTTP client as form data (data= at source line 104). -/
theorem C6_outbound_payload (cfg : Config) (req : List (String × Jval))
    (net : NetResult) (u : String) (p : List (String × Jval))
    (h : Effect.httpPost u p ∈ (google_auth_exchange cfg req net).2) :
    u = GOOGLE_TOKEN_URL ∧
    p.map Prod.fst = ["code", "client_id", "client_secret", "redirect_uri", "grant_type"] ∧
    List.lookup "code" p = List.lookup "code" req ∧
    List.lookup "client_id" p = some (.jstr (cfg.clientId.getD "")) ∧
    List.lookup "client_secret" p = some (.jstr (cfg.clientSecret.getD "")) ∧
    List.lookup "redirect_uri" p = some (.jstr (cfg.redirectUri.getD "")) ∧
    List.lookup "grant_type" p = some (.jstr "authorization_code") := by
  rcases hc : List.lookup "code" req with _ | ac
  · simp [google_auth_exchange, hc] at h
  · by_cases ht : truthy ac = true
    · by_cases hcfg : configOk cfg = true
      · rcases hsl : pySlice ac with _ | acs
        · simp [google_auth_exchange, hc, ht, hcfg, hsl] at h
        · have hmain : ∀ rest : List Effect,
              (∀ e ∈ rest, ∃ l, e = Effect.log l) →
              Effect.httpPost u p ∈
                ([.log ("Backend: Código de autorización recibido (primeros 20 chars): " ++ pyStr acs ++ "..."),
                  .log ("Backend: Solicitando tokens a Google en: " ++ GOOGLE_TOKEN_URL),
                  .httpPost GOOGLE_TOKEN_URL
                    (mkPayload ac (cfg.clientId.getD "") (cfg.clientSecret.getD "") (cfg.redirectUri.getD ""))] ++ rest) →
              u = GOOGLE_TOKEN_URL ∧
                p = mkPayload ac (cfg.clientId.getD "") (cfg.clientSecret.getD "") (cfg.redirectUri.getD "") := by
            intro rest hrest hmem
            rw [List.mem_append] at hmem
            rcases hmem with hmem | hmem
            · simp only [List.mem_cons, List.not_mem_nil, or_false] at hmem
              rcases hmem with hmem | hmem | hmem
              · exact Effect.noConfusion hmem
              · exact Effect.noConfusion hmem
              · exact ⟨(Effect.httpPost.inj hmem).1, (Effect.httpPost.inj hmem).2⟩
            · obtain ⟨l, hl⟩ := hrest _ hmem
              exact Effect.noConfusion hl
          have hres : u = GOOGLE_TOKEN_URL ∧
              p = mkPayload ac (cfg.clientId.getD "") (cfg.clientSecret.getD "") (cfg.redirectUri.getD "") := by
            cases net with
            | netFail msg =>
              simp only [google_auth_exchange, hc, ht, hcfg, hsl, if_true] at h
              refine hmain [logUnexpected msg] ?_ h
              intro e he
              simp only [logUnexpected, List.mem_cons, List.not_mem_nil, or_false] at he
              exact ⟨_, he⟩
            | netOk resp =>
              by_cases h2 : 200 ≤ resp.status ∧ resp.status < 300
              · simp only [google_auth_exchange, hc, ht, hcfg, hsl, if_true, if_pos h2] at h
                exact hmain _ (fun e he => handleRespBody_log_only resp e he) h
              · simp only [google_auth_exchange, hc, ht, hcfg, hsl, if_true, if_neg h2] at h
                refine hmain _ ?_ h
                intro e he
                simp only [List.mem_cons, List.not_mem_nil, or_false] at he
                exact ⟨_, he⟩
          obtain ⟨hu, hp⟩ := hres
          subst hp
          exact ⟨hu, rfl, rfl, rfl, rfl, rfl, rfl⟩
      · simp [google_auth_exchange, hc, ht, hcfg] at h
    · simp [google_auth_exchange, hc, ht] at h

/-- C6 witness: a concrete successful run emits the POST with exactly the
five payload fields. -/
theorem C6_witness :
    GOOGLE_TOKEN_URL = GOOGLE_TOKEN_URL ∧
    (mkPayload (.jstr "authcode12345") "cid" "csecret" "https://redirect.example/").map Prod.fst =
      ["code", "client_id", "client_secret", "redirect_uri", "grant_type"] ∧
    List.lookup "code" (mkPayload (.jstr "authcode12345") "cid" "csecret" "https://redirect.example/") =
      List.lookup "code" req0 ∧
    List.lookup "client_id" (mkPayload (.jstr "authcode12345") "cid" "csecret" "https://redirect.example/") =
      some (.jstr (cfg0.clientId.getD "")) ∧
    List.lookup "client_secret" (mkPayload (.jstr "authcode12345") "cid" "csecret" "https://redirect.example/") =
      some (.jstr (cfg0.clientSecret.getD "")) ∧
    List.lookup "redirect_uri" (mkPayload (.jstr "authcode12345") "cid" "csecret" "https://redirect.example/") =
      some (.jstr (cfg0.redirectUri.getD "")) ∧
    List.lookup "grant_type" (mkPayload (.jstr "authcode12345") "cid" "csecret" "https://redirect.example/") =
      some (.jstr "authorization_code") :=
  C6_outbound_payload cfg0 req0 net0 GOOGLE_TOKEN_URL
    (mkPayload (.jstr "authcode12345") "cid" "csecret" "https://redirect.example/")
    (by simp [google_auth_exchange, net0, req0, cfg0, mkPayload, truthy, configOk, optTruthy, pySlice])

/-- The 2xx body handling either succeeds or fails with a 500 whose detail
is the internal-error wrap of some message. -/
theorem handleRespBody_cases (resp : HttpResponse) :
    (∃ b, (handleRespBody resp).1 = .success b) ∨
    (∃ t, (handleRespBody resp).1 = .httpError 500 (internalDetail t)) := by
  rcases hres : resp.jsonBody with _ | v
  · exact Or.inr ⟨jsonDecodeMsg, by simp [handleRespBody, hres]⟩
  · cases v <;> simp only [handleRespBody, hres]
    case jobj fields =>
      simp only [handleTokenFields]
      split
      · split
        · split
          · split
            · exact Or.inl ⟨_, rfl⟩
            · exact Or.inr ⟨_, rfl⟩
          · exact Or.inl ⟨_, rfl⟩
        · exact Or.inl ⟨_, rfl⟩
      · exact Or.inr ⟨_, rfl⟩
    all_goals exact Or.inr ⟨_, rfl⟩

/-- C9 amended: for every request whose code field, when present and truthy,
supports slicing (a string or a list) — other truthy code values escape the
handler as an unhandled TypeError and receive the framework plain-text
500 — every failing call produces a structured HTTPException: a status among
400, 503, 502, 500 and a detail drawn from the fixed failure-class messages;
and that error, detail included, is unchanged when the client secret is
replaced by any other credential of the same truthiness, so the detail never
depends on the secret value. -/
theorem C9_amended_structured_errors (cfg cfgB : Config) (req : List (String × Jval))
    (net : NetResult)
    (hreq : codeHandled req = true)
    (hfail : isSuccessR (google_auth_exchange cfg req net).1 = false)
    (hid : cfgB.clientId = cfg.clientId) (huri : cfgB.redirectUri = cfg.redirectUri)
    (hsec : optTruthy cfgB.clientSecret = optTruthy cfg.clientSecret) :
    ∃ st d, (google_auth_exchange cfg req net).1 = .httpError st d ∧
      (st = 400 ∨ st = 503 ∨ st = 502 ∨ st = 500) ∧
      (d = msgCodeRequired ∨ d = msgMisconfigured ∨
       (∃ t, d = "Error al comunicarse con el servicio de autenticación de Google: " ++ t) ∨
       (∃ t, d = internalDetail t)) ∧
      (google_auth_exchange cfgB req net).1 = .httpError st d := by
  have hcfgB : configOk cfgB = configOk cfg := by
    simp [configOk, hid, huri, hsec]
  rcases hc : List.lookup "code" req with _ | ac
  · refine ⟨400, msgCodeRequired, ?_, Or.inl rfl, Or.inl rfl, ?_⟩ <;>
      simp [google_auth_exchange, hc]
  · by_cases ht : truthy ac = true
    · by_cases hcfg : configOk cfg = true
      · have hcfgB' : configOk cfgB = true := by rw [hcfgB]; exact hcfg
        rcases hsl : pySlice ac with _ | acs
        · exfalso
          simp [codeHandled, hc, ht, hsl] at hreq
        · cases net with
          | netFail msg =>
            refine ⟨500, internalDetail msg, ?_,
              Or.inr (Or.inr (Or.inr rfl)), Or.inr (Or.inr (Or.inr ⟨msg, rfl⟩)), ?_⟩ <;>
              simp [google_auth_exchange, hc, ht, hcfg, hcfgB', hsl]
          | netOk resp =>
            by_cases h2 : 200 ≤ resp.status ∧ resp.status < 300
            · simp only [google_auth_exchange, hc, ht, hcfg, hsl, if_true, if_pos h2] at hfail
              rcases handleRespBody_cases resp with ⟨b, hb⟩ | ⟨t, htt⟩
              · rw [hb] at hfail
                simp [isSuccessR] at hfail
              · refine ⟨500, internalDetail t, ?_,
                  Or.inr (Or.inr (Or.inr rfl)), Or.inr (Or.inr (Or.inr ⟨t, rfl⟩)), ?_⟩ <;>
                  simp only [google_auth_exchange, hc, ht, hcfg, hcfgB', hsl, if_true,
                    if_pos h2] <;> exact htt
            · refine ⟨502,
                "Error al comunicarse con el servicio de autenticación de Google: " ++
                  pyStr (upstreamErrDesc resp), ?_,
                Or.inr (Or.inr (Or.inl rfl)),
                Or.inr (Or.inr (Or.inl ⟨pyStr (upstreamErrDesc resp), rfl⟩)), ?_⟩ <;>
                simp [google_auth_exchange, hc, ht, hcfg, hcfgB', hsl, if_neg h2]
      · have hcfgB' : configOk cfgB = false := by
          rw [hcfgB]; exact eq_false_of_ne_true hcfg
        refine ⟨503, msgMisconfigured, ?_, Or.inr (Or.inl rfl), Or.inr (Or.inl rfl), ?_⟩ <;>
          simp [google_auth_exchange, hc, ht, eq_false_of_ne_true hcfg, hcfgB']
    · refine ⟨400, msgCodeRequired, ?_, Or.inl rfl, Or.inl rfl, ?_⟩ <;>
        simp [google_auth_exchange, hc, ht]

/-- Request body whose code is a truthy number. -/
def reqNum : List (String × Jval) := [("code", .jnum 5)]

/-- C9 counterexample: a failing call whose code is the number 5 raises an
unhandled TypeError at the source line 88 slice, outside the try block, so
the caller gets the framework plain-text 500, not a structured JSON error
body with a detail field, refuting the claim for this failing call. -/
theorem C9_counterexample :
    (google_auth_exchange cfg0 reqNum net0).1 =
      .unhandled "\x27int\x27 object is not subscriptable" ∧
    isSuccessR (google_auth_exchange cfg0 reqNum net0).1 = false ∧
    isHttpErrorR (google_auth_exchange cfg0 reqNum net0).1 = false :=
  ⟨rfl, rfl, rfl⟩

/-- Same credentials as cfg0 with a different, equally truthy client secret. -/
def cfgAltSecret : Config :=
  { clientId := some "cid", clientSecret := some "other",
    redirectUri := some "https://redirect.example/" }

/-- C9 witness: a concrete failing call (transport failure) yields a
structured error of the stated shape, unchanged under a different client
secret. -/
theorem C9_witness :
    ∃ st d, (google_auth_exchange cfg0 req0 net0).1 = .httpError st d ∧
      (st = 400 ∨ st = 503 ∨ st = 502 ∨ st = 500) ∧
      (d = msgCodeRequired ∨ d = msgMisconfigured ∨
       (∃ t, d = "Error al comunicarse con el servicio de autenticación de Google: " ++ t) ∨
       (∃ t, d = internalDetail t)) ∧
      (google_auth_exchange cfgAltSecret req0 net0).1 = .httpError st d :=
  C9_amended_structured_errors cfg0 cfgAltSecret req0 net0 rfl rfl rfl rfl rfl

/-- Association lookup of a key ignores an entry with a different key,
whatever value that entry holds. -/
theorem lookup_mid_ne {β : Type} (k kmid : String) (v v' : β)
    (pre post : List (String × β)) (h : (k == kmid) = false) :
    List.lookup k (pre ++ (kmid, v) :: post) =
      List.lookup k (pre ++ (kmid, v') :: post) := by
  induction pre with
  | nil => simp [List.lookup, h]
  | cons p rest ih =>
    rcases p with ⟨pk, pv⟩
    simp only [List.cons_append, List.lookup]
    split
    · rfl
    · exact ih

/-- Association lookup of a key finds a middle entry with that key when the
key does not occur earlier. -/
theorem lookup_mid_hit {β : Type} (kmid : String) (v : β)
    (pre post : List (String × β)) (h : List.lookup kmid pre = none) :
    List.lookup kmid (pre ++ (kmid, v) :: post) = some v := by
  induction pre with
  | nil => simp [List.lookup]
  | cons p rest ih =>
    rcases p with ⟨pk, pv⟩
    rcases hbe : kmid == pk with _ | _
    · simp only [List.lookup, hbe] at h
      simp only [List.cons_append, List.lookup, hbe]
      exact ih h
    · simp only [List.lookup, hbe] at h
      exact Option.noConfusion h

/-- On complete token dicts whose refresh entry is absent, falsy or
sliceable, the 2xx handling succeeds with the body built from the two token
lookups. -/
theorem handleTokenFields_fst_of_benign (o : List (String × Jval))
    (hro : refreshBenign o = true)
    (hcond : (pyTruthyOpt (List.lookup "access_token" o) &&
              pyTruthyOpt (List.lookup "id_token" o)) = true) :
    (handleTokenFields o).1 =
      .success (successBody (List.lookup "access_token" o) (List.lookup "id_token" o)) := by
  simp only [handleTokenFields, hcond, if_true]
  rcases hrf : List.lookup "refresh_token" o with _ | v
  · simp [hrf]
  · unfold refreshBenign at hro
    rw [hrf] at hro
    by_cases htv : truthy v = true
    · simp only [htv, Bool.not_true, Bool.false_or] at hro
      rcases hsv : pySlice v with _ | w
      · rw [hsv] at hro
        simp at hro
      · simp [hrf, htv, hsv]
    · simp [hrf, htv]

/-- On incomplete token dicts the 2xx handling fails with the wrapped 500. -/
theorem handleTokenFields_fst_of_incomplete (o : List (String × Jval))
    (hcond : (pyTruthyOpt (List.lookup "access_token" o) &&
              pyTruthyOpt (List.lookup "id_token" o)) = false) :
    (handleTokenFields o).1 =
      .httpError 500 (internalDetail ("500: " ++ incompleteMsg)) := by
  simp [handleTokenFields, hcond]

/-- The client-facing part of the 2xx handling depends only on the
access_token and id_token lookups, provided any refresh entry is absent,
falsy or sliceable. -/
theorem handleTokenFields_fst_congr (o1 o2 : List (String × Jval))
    (ha : List.lookup "access_token" o1 = List.lookup "access_token" o2)
    (hi : List.lookup "id_token" o1 = List.lookup "id_token" o2)
    (hr1 : refreshBenign o1 = true) (hr2 : refreshBenign o2 = true) :
    (handleTokenFields o1).1 = (handleTokenFields o2).1 := by
  by_cases hcond : (pyTruthyOpt (List.lookup "access_token" o1) &&
      pyTruthyOpt (List.lookup "id_token" o1)) = true
  · rw [handleTokenFields_fst_of_benign o1 hr1 hcond,
      handleTokenFields_fst_of_benign o2 hr2 (by rw [← ha, ← hi]; exact hcond),
      ha, hi]
  · rw [handleTokenFields_fst_of_incomplete o1 (eq_false_of_ne_true hcond),
      handleTokenFields_fst_of_incomplete o2
        (by rw [← ha, ← hi]; exact eq_false_of_ne_true hcond)]

/-- C10 amended: first, two 2xx provider responses whose JSON objects agree
on access_token and id_token produce the identical client-facing result,
whatever refresh_token each carries — absent, falsy, string or list — as
long as each refresh_token, when present and truthy, supports the line 126
slice; second, a truthy non-sliceable refresh_token (a number, boolean or
object) instead crashes the line 126 slice and turns the success into the
500 internal error carrying the TypeError message. -/
theorem C10_amended_refresh_noninterference :
    (∀ (cfg : Config) (req : List (String × Jval)) (s1 s2 : Nat) (t1 t2 : String)
       (o1 o2 : List (String × Jval)),
       200 ≤ s1 ∧ s1 < 300 → 200 ≤ s2 ∧ s2 < 300 →
       List.lookup "access_token" o1 = List.lookup "access_token" o2 →
       List.lookup "id_token" o1 = List.lookup "id_token" o2 →
       refreshBenign o1 = true → refreshBenign o2 = true →
       (google_auth_exchange cfg req (.netOk ⟨s1, some (.jobj o1), t1⟩)).1 =
       (google_auth_exchange cfg req (.netOk ⟨s2, some (.jobj o2), t2⟩)).1) ∧
    (∀ (cfg : Config) (req : List (String × Jval)) (s : Nat) (t : String)
       (o : List (String × Jval)) (v ac acs : Jval),
       List.lookup "code" req = some ac → truthy ac = true → pySlice ac = some acs →
       configOk cfg = true → 200 ≤ s ∧ s < 300 →
       (pyTruthyOpt (List.lookup "access_token" o) &&
        pyTruthyOpt (List.lookup "id_token" o)) = true →
       List.lookup "refresh_token" o = some v → truthy v = true → pySlice v = none →
       (google_auth_exchange cfg req (.netOk ⟨s, some (.jobj o), t⟩)).1 =
         .httpError 500 (internalDetail (pySliceErrMsg v))) := by
  constructor
  · intro cfg req s1 s2 t1 t2 o1 o2 h1 h2 ha hi hr1 hr2
    rcases hc : List.lookup "code" req with _ | ac
    · simp [google_auth_exchange, hc]
    · by_cases ht : truthy ac = true
      · by_cases hcfg : configOk cfg = true
        · rcases hsl : pySlice ac with _ | acs
          · simp [google_auth_exchange, hc, ht, hcfg, hsl]
          · simp only [google_auth_exchange, hc, ht, hcfg, hsl, if_true, if_pos h1, if_pos h2]
            simp only [handleRespBody]
            exact handleTokenFields_fst_congr o1 o2 ha hi hr1 hr2
        · simp [google_auth_exchange, hc, ht, hcfg]
      · simp [google_auth_exchange, hc, ht]
  · intro cfg req s t o v ac acs hc ht hsl hcfg h2 hcond hrf htv hsv
    simp only [google_auth_exchange, hc, ht, hcfg, hsl, if_true, if_pos h2]
    simp only [handleRespBody]
    simp [handleTokenFields, hcond, hrf, htv, hsv]

/-- Token dict with a truthy numeric refresh_token. -/
def rtNumFields : List (String × Jval) :=
  [("access_token", .jstr "at"), ("id_token", .jstr "it"), ("refresh_token", .jnum 5)]

/-- Same tokens with no refresh_token. -/
def rtAbsentFields : List (String × Jval) :=
  [("access_token", .jstr "at"), ("id_token", .jstr "it")]

/-- C10 counterexample: two 200 provider responses agreeing on access_token
and id_token but differing in the refresh_token (the number 5 vs absent)
give different client-facing responses: the first crashes the line 126 slice
into a 500, the second succeeds with 200, refuting the claim as stated. -/
theorem C10_counterexample :
    (google_auth_exchange cfg0 req0 (.netOk ⟨200, some (.jobj rtNumFields), ""⟩)).1 =
      .httpError 500 (internalDetail "\x27int\x27 object is not subscriptable") ∧
    (google_auth_exchange cfg0 req0 (.netOk ⟨200, some (.jobj rtAbsentFields), ""⟩)).1 =
      .success (successBody (some (.jstr "at")) (some (.jstr "it"))) ∧
    statusOf (google_auth_exchange cfg0 req0 (.netOk ⟨200, some (.jobj rtNumFields), ""⟩)).1 ≠
      statusOf (google_auth_exchange cfg0 req0 (.netOk ⟨200, some (.jobj rtAbsentFields), ""⟩)).1 := by
  exact ⟨rfl, rfl, by decide⟩

/-- C10 witness: two concrete 2xx responses with different string refresh
tokens (and different statuses and bodies elsewhere irrelevant to the
result) give the identical client-facing result, and the concrete numeric
refresh token turns the success into the 500 slice error. -/
theorem C10_witness :
    ((google_auth_exchange cfg0 req0 (.netOk ⟨200,
        some (.jobj [("access_token", .jstr "at"), ("id_token", .jstr "it"), ("refresh_token", .jstr "rt1")]), "b1"⟩)).1 =
     (google_auth_exchange cfg0 req0 (.netOk ⟨201,
        some (.jobj [("access_token", .jstr "at"), ("id_token", .jstr "it"), ("refresh_token", .jstr "rt2")]), "b2"⟩)).1) ∧
    (google_auth_exchange cfg0 req0 (.netOk ⟨200, some (.jobj rtNumFields), ""⟩)).1 =
      .httpError 500 (internalDetail (pySliceErrMsg (.jnum 5))) :=
  ⟨C10_amended_refresh_noninterference.1 cfg0 req0 200 201 "b1" "b2"
      [("access_token", .jstr "at"), ("id_token", .jstr "it"), ("refresh_token", .jstr "rt1")]
      [("access_token", .jstr "at"), ("id_token", .jstr "it"), ("refresh_token", .jstr "rt2")]
      (by decide) (by decide) rfl rfl rfl rfl,
   C10_amended_refresh_noninterference.2 cfg0 req0 200 "" rtNumFields (.jnum 5)
      (.jstr "authcode12345") (.jstr "authcode12345")
      rfl rfl rfl rfl (by decide) rfl rfl rfl rfl⟩

/-- The truncated token dict logged at source line 108 depends on a long
refresh token only through its first 20 characters. -/
theorem truncEntries_congr (pre post : List (String × Jval)) (rt1 rt2 : String)
    (hlen1 : rt1.length > 20) (hlen2 : rt2.length > 20)
    (hpref20 : rt1.take 20 = rt2.take 20) :
    truncEntries (pre ++ ("refresh_token", Jval.jstr rt1) :: post) =
    truncEntries (pre ++ ("refresh_token", Jval.jstr rt2) :: post) := by
  have h1 : truncVal (Jval.jstr rt1) = .jstr (rt1.take 20 ++ "...") := by
    simp [truncVal, hlen1]
  have h2 : truncVal (Jval.jstr rt2) = .jstr (rt2.take 20 ++ "...") := by
    simp [truncVal, hlen2]
  simp only [truncEntries, List.map_append, List.map_cons]
  rw [h1, h2, hpref20]

/-- On the success path with a present nonempty string refresh token, the
2xx token handling returns the success body and logs exactly the first 20
characters of the token plus the TODO line. -/
theorem handleTokenFields_eq_of_rt (o : List (String × Jval)) (rt : String)
    (hrf : List.lookup "refresh_token" o = some (.jstr rt)) (hne : rt ≠ "")
    (hcond : (pyTruthyOpt (List.lookup "access_token" o) &&
              pyTruthyOpt (List.lookup "id_token" o)) = true) :
    handleTokenFields o =
      (.success (successBody (List.lookup "access_token" o) (List.lookup "id_token" o)),
       [.log ("Backend: ¡REFRESH TOKEN RECIBIDO! (primeros 20 chars): " ++ rt.take 20 ++ "..."),
        .log "TODO: Implementar almacenamiento seguro del refresh_token aquí."]) := by
  have htr : truthy (Jval.jstr rt) = true := by simp [truthy, hne]
  simp only [handleTokenFields, hcond, if_true, hrf, htr, pySlice, pyStr]

/-- C8 amended: on a successful exchange whose provider response carries a
refresh token longer than 20 characters together with truthy access_token
and id_token, the entire observable behaviour — response and every log
line — depends on the refresh token only through its first 20 characters, so
the logs can reveal at most that truncated beginning; outside these
conditions the claim fails: a token of at most 20 characters is logged in
full by the line 108 and line 126 prints, and on an incomplete response the
line 115 print logs the whole token dict including the full refresh token. -/
theorem C8_amended_log_redaction (cfg : Config) (req : List (String × Jval))
    (s : Nat) (t : String) (pre post : List (String × Jval)) (rt1 rt2 : String)
    (hpre : List.lookup "refresh_token" pre = none)
    (hlen1 : rt1.length > 20) (hlen2 : rt2.length > 20)
    (hpref20 : rt1.take 20 = rt2.take 20)
    (ha : pyTruthyOpt (List.lookup "access_token"
            (pre ++ ("refresh_token", Jval.jstr rt1) :: post)) = true)
    (hi : pyTruthyOpt (List.lookup "id_token"
            (pre ++ ("refresh_token", Jval.jstr rt1) :: post)) = true) :
    google_auth_exchange cfg req
        (.netOk ⟨s, some (.jobj (pre ++ ("refresh_token", Jval.jstr rt1) :: post)), t⟩) =
    google_auth_exchange cfg req
        (.netOk ⟨s, some (.jobj (pre ++ ("refresh_token", Jval.jstr rt2) :: post)), t⟩) := by
  have hA2 := lookup_mid_ne "access_token" "refresh_token"
    (Jval.jstr rt1) (Jval.jstr rt2) pre post (by decide)
  have hI2 := lookup_mid_ne "id_token" "refresh_token"
    (Jval.jstr rt1) (Jval.jstr rt2) pre post (by decide)
  have hED := lookup_mid_ne "error_description" "refresh_token"
    (Jval.jstr rt1) (Jval.jstr rt2) pre post (by decide)
  have hE := lookup_mid_ne "error" "refresh_token"
    (Jval.jstr rt1) (Jval.jstr rt2) pre post (by decide)
  have hRf1 := lookup_mid_hit "refresh_token" (Jval.jstr rt1) pre post hpre
  have hRf2 := lookup_mid_hit "refresh_token" (Jval.jstr rt2) pre post hpre
  have hne1 : rt1 ≠ "" := fun hh => absurd (hh ▸ hlen1) (by decide)
  have hne2 : rt2 ≠ "" := fun hh => absurd (hh ▸ hlen2) (by decide)
  have hHB : handleRespBody ⟨s, some (.jobj (pre ++ ("refresh_token", Jval.jstr rt1) :: post)), t⟩ =
      handleRespBody ⟨s, some (.jobj (pre ++ ("refresh_token", Jval.jstr rt2) :: post)), t⟩ := by
    simp only [handleRespBody]
    rw [truncEntries_congr pre post rt1 rt2 hlen1 hlen2 hpref20,
      handleTokenFields_eq_of_rt _ rt1 hRf1 hne1 (by simp [ha, hi]),
      handleTokenFields_eq_of_rt _ rt2 hRf2 hne2 (by rw [← hA2, ← hI2]; simp [ha, hi]),
      hA2, hI2, hpref20]
  have hDesc : upstreamErrDesc ⟨s, some (.jobj (pre ++ ("refresh_token", Jval.jstr rt1) :: post)), t⟩ =
      upstreamErrDesc ⟨s, some (.jobj (pre ++ ("refresh_token", Jval.jstr rt2) :: post)), t⟩ := by
    simp only [upstreamErrDesc]
    rw [hED, hE]
  rcases hc : List.lookup "code" req with _ | ac
  · simp [google_auth_exchange, hc]
  · by_cases ht : truthy ac = true
    · by_cases hcfg : configOk cfg = true
      · rcases hsl : pySlice ac with _ | acs
        · simp [google_auth_exchange, hc, ht, hcfg, hsl]
        · by_cases h2 : 200 ≤ s ∧ s < 300
          · simp only [google_auth_exchange, hc, ht, hcfg, hsl, if_true, if_pos h2]
            rw [hHB]
          · simp only [google_auth_exchange, hc, ht, hcfg, hsl, if_true, if_neg h2]
            rw [hDesc]
      · simp [google_auth_exchange, hc, ht, hcfg]
    · simp [google_auth_exchange, hc, ht]

/-- Token dict of a 200 response that lacks access_token but carries a full
refresh token longer than 20 characters. -/
def leakFields : List (String × Jval) :=
  [("id_token", .jstr "it"),
   ("refresh_token", .jstr "SECRET-REFRESH-TOKEN-FULL-VALUE")]

/-- The incomplete 200 response used to exhibit the refresh-token log leak. -/
def respLeak : HttpResponse :=
  { status := 200, jsonBody := some (.jobj leakFields), text := "" }

set_option maxRecDepth 8000 in
/-- C8 counterexample: on a 200 response carrying a 31-character refresh
token but no access_token, the line 115 print logs the whole token dict, so
some log line of the run contains the full refresh token, not merely a
truncated beginning, refuting the claim as stated. -/
theorem C8_counterexample :
    ((google_auth_exchange cfg0 req0 (.netOk respLeak)).2.any fun e =>
        match e with
        | .log l => strContainsStr l "SECRET-REFRESH-TOKEN-FULL-VALUE"
        | _ => false) = true ∧
    "SECRET-REFRESH-TOKEN-FULL-VALUE".length > 20 := by
  exact ⟨by decide, by decide⟩

/-- C8 witness: two concrete runs whose 21-character refresh tokens share
their first 20 characters are observably identical, logs included. -/
theorem C8_witness :
    google_auth_exchange cfg0 req0
        (.netOk ⟨200, some (.jobj ([("access_token", Jval.jstr "at"), ("id_token", Jval.jstr "it")] ++
          ("refresh_token", Jval.jstr "AAAAAAAAAAAAAAAAAAAAB") :: [])), ""⟩) =
    google_auth_exchange cfg0 req0
        (.netOk ⟨200, some (.jobj ([("access_token", Jval.jstr "at"), ("id_token", Jval.jstr "it")] ++
          ("refresh_token", Jval.jstr "AAAAAAAAAAAAAAAAAAAAC") :: [])), ""⟩) :=
  C8_amended_log_redaction cfg0 req0 200 ""
    [("access_token", Jval.jstr "at"), ("id_token", Jval.jstr "it")] []
    "AAAAAAAAAAAAAAAAAAAAB" "AAAAAAAAAAAAAAAAAAAAC"
    rfl (by decide) (by decide) (by decide) rfl rfl
